import Mathlib

/-!
Verification of the ad-moderation backend (Avito_HSE_backend).

Shallow embedding of the asynchronous moderation pipeline:
the moderation_results store (src/repositories/moderation_results.py),
the worker's message-processing state machine
(src/app/workers/moderation_worker.py), the producer-side service
(src/services/async_moderation.py), the Kafka producer message format
(src/app/clients/kafka.py) and the prediction cache
(src/repositories/prediction_cache.py).

Relational tables are lists of rows; SQL UPDATE is a map over rows
matching the WHERE predicate; SQL DELETE is a filter.  Python floats
that are merely stored and passed through (probabilities) are modelled
as rationals.  Fallible collaborator calls (ad lookup, model predict,
Kafka sends, Redis operations) are parameters of an environment record,
with Python exceptions modelled as Except / Option outcomes.
-/

/-- Lifecycle status of a moderation task (`status` column of
`moderation_results`; the application only ever writes these three). -/
inductive Status where
  | pending
  | completed
  | failed
deriving DecidableEq, Repr

/-- One row of the `moderation_results` table
(src/repositories/moderation_results.py, class ModerationResult).
`processed_at` is a clock tick supplied by the caller, standing for
SQL NOW(). -/
structure ModerationRow where
  id : Nat
  item_id : Nat
  status : Status
  is_violation : Option Bool
  probability : Option Rat
  error_message : Option String
  processed_at : Option Nat
deriving DecidableEq, Repr

namespace ModerationResultRepository

/-- SELECT ... FROM moderation_results WHERE id = $1
(ModerationResultRepository.get_by_id). -/
def get_by_id (db : List ModerationRow) (task_id : Nat) : Option ModerationRow :=
  db.find? (fun r => r.id == task_id)

/-- UPDATE moderation_results SET status = completed, is_violation = $2,
probability = $3, processed_at = NOW() WHERE id = $1
(ModerationResultRepository.update_completed).  Note: the WHERE clause
matches on id only; there is no status predicate. -/
def update_completed (db : List ModerationRow) (task_id : Nat)
    (is_violation : Bool) (probability : Rat) (now : Nat) : List ModerationRow :=
  db.map (fun r =>
    if r.id = task_id then
      { r with status := Status.completed, is_violation := some is_violation,
               probability := some probability, processed_at := some now }
    else r)

/-- UPDATE moderation_results SET status = failed, error_message = $2,
processed_at = NOW() WHERE id = $1
(ModerationResultRepository.update_failed).  Note: the WHERE clause
matches on id only; there is no status predicate. -/
def update_failed (db : List ModerationRow) (task_id : Nat)
    (error_message : String) (now : Nat) : List ModerationRow :=
  db.map (fun r =>
    if r.id = task_id then
      { r with status := Status.failed, error_message := some error_message,
               processed_at := some now }
    else r)

/-- SELECT id FROM moderation_results WHERE item_id = $1
(ModerationResultRepository.get_task_ids_by_item_id). -/
def get_task_ids_by_item_id (db : List ModerationRow) (item_id : Nat) : List Nat :=
  (db.filter (fun r => r.item_id == item_id)).map (fun r => r.id)

/-- DELETE FROM moderation_results WHERE item_id = $1 RETURNING id
(ModerationResultRepository.delete_by_item_id); returns the remaining
table and the number of deleted rows. -/
def delete_by_item_id (db : List ModerationRow) (item_id : Nat) :
    List ModerationRow × Nat :=
  ((db.filter (fun r => r.item_id != item_id)),
   (db.filter (fun r => r.item_id == item_id)).length)

end ModerationResultRepository

/-- The worker's inline completed-update (ModerationWorker.process_message,
step 4): UPDATE moderation_results SET status = completed, is_violation = $1,
probability = $2, processed_at = NOW() WHERE item_id = $3 AND
status = pending RETURNING id.  Returns the new table and the ids of
the updated rows (fetchrow surfaces the first of them to the log). -/
def workerUpdateCompleted (db : List ModerationRow) (item_id : Nat)
    (is_violation : Bool) (probability : Rat) (now : Nat) :
    List ModerationRow × List Nat :=
  (db.map (fun r =>
      if r.item_id = item_id ∧ r.status = Status.pending then
        { r with status := Status.completed, is_violation := some is_violation,
                 probability := some probability, processed_at := some now }
      else r),
   (db.filter (fun r => r.item_id == item_id && r.status == Status.pending)).map
     (fun r => r.id))

/-- The worker's inline failed-update
(ModerationWorker._update_moderation_status_failed):
UPDATE moderation_results SET status = failed, error_message = $1,
processed_at = NOW() WHERE item_id = $2 AND status = pending
RETURNING id. -/
def workerUpdateFailed (db : List ModerationRow) (item_id : Nat)
    (error_message : String) (now : Nat) : List ModerationRow × List Nat :=
  (db.map (fun r =>
      if r.item_id = item_id ∧ r.status = Status.pending then
        { r with status := Status.failed, error_message := some error_message,
                 processed_at := some now }
      else r),
   (db.filter (fun r => r.item_id == item_id && r.status == Status.pending)).map
     (fun r => r.id))

/- Worker message model -/

/-- A value decoded from the `moderation` topic
(`message.value` in ModerationWorker.process_message; produced either by
KafkaProducer.send_moderation_request or by ModerationWorker.schedule_retry).
All fields are read with dict .get, hence Option. -/
structure QueueMessage where
  item_id : Option Nat
  task_id : Option Nat
  timestamp : Option String
  retry_count : Option Nat
  last_error : Option String
deriving DecidableEq, Repr

/-- A consumed Kafka record: the decoded value plus the record
coordinates the DLQ message copies (message.topic / partition / offset). -/
structure KafkaMessage where
  value : QueueMessage
  topic : String
  partition : Nat
  offset : Nat
deriving DecidableEq, Repr

/-- `error_type` field of a DLQ message (ModerationWorker.send_to_dlq:
"permanent" if is_permanent else "max_retries_exceeded"). -/
inductive ErrorType where
  | permanent
  | max_retries_exceeded
deriving DecidableEq, Repr

/-- The JSON object published to the `moderation_dlq` topic
(ModerationWorker.send_to_dlq). `timestamp` is the worker clock tick. -/
structure DLQMessage where
  original_message : QueueMessage
  error : String
  error_type : ErrorType
  timestamp : Nat
  retry_count : Nat
  topic : String
  partition : Nat
  offset : Nat
deriving DecidableEq, Repr

/-- An ad row joined with its seller
(src/repositories/ads.py, class Ad, as returned by
AdRepository.get_by_id with include_seller=True). -/
structure Ad where
  id : Nat
  seller_id : Nat
  name : String
  description : String
  category : Nat
  images_qty : Nat
  is_closed : Bool
  seller_is_verified : Option Bool
deriving DecidableEq, Repr

/-- A Python exception as seen by process_message's handlers:
RuntimeError (caught first, treated as transient) versus any other
Exception (caught by the generic handler). -/
inductive PyErr where
  | runtime (msg : String)
  | other (msg : String)
deriving DecidableEq, Repr

/-- Message of a PyErr (str(e)). -/
def PyErr.msg : PyErr → String
  | .runtime s => s
  | .other s => s

/-- Outcomes of the worker's collaborator calls while it processes one
message: the ad lookup (returns a row or None), the classifier
(returns a prediction or raises), the step-4 database update (may
raise), the retry producer's send (may raise), and the wall clock. -/
structure WorkerEnv where
  adLookup : Nat → Option Ad
  predict : Ad → Except PyErr (Bool × Rat)
  updateErr : Option PyErr
  retryEnqueueErr : Option String
  now : Nat

/-- Observable side effects of processing one message, in program order. -/
inductive Effect where
  | sentRetry (m : QueueMessage)
  | sentDLQ (d : DLQMessage)
  | sleep (seconds : Nat)
  | updatedFailedRows (ids : List Nat)
  | noPendingFailedRows
  | savedCompleted (ids : List Nat)
  | noPendingNoOp
deriving DecidableEq, Repr

/-- ModerationWorker.MAX_RETRIES. -/
def MAX_RETRIES : Nat := 3

/-- ModerationWorker.RETRY_DELAY_SECONDS. -/
def RETRY_DELAY_SECONDS : Nat := 5

/-- data.get('retry_count', 0). -/
def retryCountOf (q : QueueMessage) : Nat := q.retry_count.getD 0

/-- Python truthiness of the extracted item id (`if not item_id`):
a missing key and the integer 0 are both falsy. -/
def truthyItem : Option Nat → Option Nat
  | none => none
  | some 0 => none
  | some (n + 1) => some (n + 1)

/-- The DLQ record ModerationWorker.send_to_dlq builds: the original
message value wrapped with the error, its classification and the
record coordinates. -/
def dlqMessage (env : WorkerEnv) (msg : KafkaMessage) (error : String)
    (is_permanent : Bool) : DLQMessage :=
  { original_message := msg.value
    error := error
    error_type := if is_permanent then ErrorType.permanent
                  else ErrorType.max_retries_exceeded
    timestamp := env.now
    retry_count := retryCountOf msg.value
    topic := msg.topic
    partition := msg.partition
    offset := msg.offset }

/-- ModerationWorker.send_to_dlq as an observable effect. -/
def send_to_dlq (env : WorkerEnv) (msg : KafkaMessage) (error : String)
    (is_permanent : Bool) : Effect :=
  Effect.sentDLQ (dlqMessage env msg error is_permanent)

/-- ModerationWorker.schedule_retry: sleep RETRY_DELAY_SECONDS, then
re-enqueue a fresh message with retry_count+1 and last_error onto the
moderation topic; if that send itself raises, send the original message
to the DLQ as permanent. -/
def schedule_retry (env : WorkerEnv) (msg : KafkaMessage)
    (error_message : String) : List Effect :=
  let rc := retryCountOf msg.value + 1
  let retryMsg : QueueMessage :=
    { item_id := msg.value.item_id
      task_id := none
      timestamp := msg.value.timestamp
      retry_count := some rc
      last_error := some error_message }
  match env.retryEnqueueErr with
  | none => [Effect.sleep RETRY_DELAY_SECONDS, Effect.sentRetry retryMsg]
  | some e =>
      [Effect.sleep RETRY_DELAY_SECONDS,
       send_to_dlq env msg ("Retry mechanism error: " ++ e) true]

/-- The error string the two except handlers log and forward
(f-strings at moderation_worker.py lines 207 and 228). -/
def workerErrMsg : PyErr → String
  | .runtime s => "Transient error: " ++ s
  | .other s => "Critical processing error: " ++ s

/-- The error_message written to the store when the retry budget is
exhausted (moderation_worker.py lines 222 and 241). -/
def workerFailMsg : PyErr → String
  | .runtime s => "Max retries reached. Last error: " ++ s
  | .other s => s

/-- The except handlers of ModerationWorker.process_message (both the
RuntimeError branch and the generic Exception branch): below
MAX_RETRIES reschedule, otherwise mark the task failed (item id
permitting) and send to the DLQ as max_retries_exceeded. -/
def handleWorkerError (env : WorkerEnv) (msg : KafkaMessage)
    (db : List ModerationRow) (e : PyErr) : List ModerationRow × List Effect :=
  if retryCountOf msg.value < MAX_RETRIES then
    (db, schedule_retry env msg (workerErrMsg e))
  else
    match truthyItem msg.value.item_id with
    | some i =>
        let upd := workerUpdateFailed db i (workerFailMsg e) env.now
        (upd.1,
         (if upd.2.isEmpty then [Effect.noPendingFailedRows]
          else [Effect.updatedFailedRows upd.2]) ++
           [send_to_dlq env msg (workerErrMsg e) false])
    | none => (db, [send_to_dlq env msg (workerErrMsg e) false])

/-- ModerationWorker.process_message: extract item_id, look up the ad,
invoke the classifier, apply the pending-guarded completed update; a
falsy item id or a missing ad is permanent (DLQ, no retry), while
exceptions from the classifier or the update go through the retry
budget. -/
def process_message (env : WorkerEnv) (msg : KafkaMessage)
    (db : List ModerationRow) : List ModerationRow × List Effect :=
  match truthyItem msg.value.item_id with
  | none => (db, [send_to_dlq env msg "Missing item_id in message" true])
  | some i =>
    match env.adLookup i with
    | none =>
        let errMsg := "Ad not found: item_id=" ++ toString i
        let upd := workerUpdateFailed db i errMsg env.now
        (upd.1,
         (if upd.2.isEmpty then [Effect.noPendingFailedRows]
          else [Effect.updatedFailedRows upd.2]) ++
           [send_to_dlq env msg errMsg true])
    | some ad =>
      match env.predict ad with
      | .error e => handleWorkerError env msg db e
      | .ok (is_violation, probability) =>
        match env.updateErr with
        | some e => handleWorkerError env msg db e
        | none =>
          let upd := workerUpdateCompleted db i is_violation probability env.now
          (upd.1,
           if upd.2.isEmpty then [Effect.noPendingNoOp]
           else [Effect.savedCompleted upd.2])

/-- Characterization of the runs in which process_message's try block
raises (a retryable failure): the item id was truthy, the ad was found,
and the classifier or the step-4 update raised. -/
def retryableFailure (env : WorkerEnv) (msg : KafkaMessage) : Option PyErr :=
  match truthyItem msg.value.item_id with
  | none => none
  | some i =>
    match env.adLookup i with
    | none => none
    | some ad =>
      match env.predict ad with
      | .error e => some e
      | .ok _ => env.updateErr

/-- KafkaProducer.send_moderation_request (src/app/clients/kafka.py):
the producer-side message carries item_id, task_id and a timestamp;
retry fields are absent on first submission. -/
def KafkaProducer.send_moderation_request (item_id task_id : Nat)
    (timestamp : String) : QueueMessage :=
  { item_id := some item_id
    task_id := some task_id
    timestamp := some timestamp
    retry_count := none
    last_error := none }

/- Response models and cache layer -/

/-- models.ads.PredictResponse. -/
structure PredictResponse where
  is_violation : Bool
  probability : Rat
deriving DecidableEq, Repr

/-- models.ads.ModerationResultResponse. -/
structure ModerationResultResponse where
  task_id : Nat
  status : Status
  is_violation : Option Bool
  probability : Option Rat
  error_message : Option String
deriving DecidableEq, Repr

/-- A cached value together with the TTL (seconds) it was stored with. -/
structure CacheEntry (α : Type) where
  value : α
  ttl : Nat
deriving DecidableEq, Repr

/-- Association-list lookup by numeric key (models Redis GET). -/
def assocGet {α : Type} : List (Nat × α) → Nat → Option α
  | [], _ => none
  | p :: tl, k => if p.1 = k then some p.2 else assocGet tl k

/-- Association-list removal of a key (models Redis DEL). -/
def assocDel {α : Type} : List (Nat × α) → Nat → List (Nat × α)
  | [], _ => []
  | p :: tl, k => if p.1 = k then assocDel tl k else p :: assocDel tl k

/-- Association-list insertion with overwrite (models Redis SET). -/
def assocSet {α : Type} (l : List (Nat × α)) (k : Nat) (v : α) :
    List (Nat × α) :=
  (k, v) :: assocDel l k

/-- The Redis key space behind PredictionCacheStorage: the
prediction-by-item namespace (keys prediction:item:N) and the
moderation-result-by-task namespace (keys prediction:task:N). -/
structure CacheState where
  predByItem : List (Nat × CacheEntry PredictResponse)
  modByTask : List (Nat × CacheEntry ModerationResultResponse)
deriving DecidableEq, Repr

namespace PredictionCacheStorage

/-- PredictionCacheStorage.TTL_SECONDS (15 minutes). -/
def TTL_SECONDS : Nat := 15 * 60

/-- PredictionCacheStorage.ASYNC_TTL_SECONDS (5 minutes). -/
def ASYNC_TTL_SECONDS : Nat := 5 * 60

/-- The Redis client's availability and the faults its operations can
raise during one cache call (connection errors, malformed payloads —
anything the storage's except-handler would catch). -/
structure RedisEnv where
  started : Bool
  readFault : Option String
  writeFault : Option String
deriving DecidableEq, Repr

/-- The body of PredictionCacheStorage.get before its except-handler:
an unstarted client short-circuits to None, a faulted Redis GET or
json.loads raises, otherwise the stored payload is decoded. -/
def getInner (env : RedisEnv) (cache : CacheState) (item_id : Nat) :
    Except String (Option PredictResponse) :=
  if env.started = false then Except.ok none
  else
    match env.readFault with
    | some f => Except.error f
    | none => Except.ok ((assocGet cache.predByItem item_id).map (fun e => e.value))

/-- PredictionCacheStorage.get: the except-handler turns any raised
fault into a miss (None). -/
def get (env : RedisEnv) (cache : CacheState) (item_id : Nat) :
    Option PredictResponse :=
  match getInner env cache item_id with
  | Except.ok v => v
  | Except.error _ => none

/-- The body of PredictionCacheStorage.set before its except-handler:
an unstarted client short-circuits to a no-op, a faulted Redis SET
raises, otherwise the payload is stored with TTL_SECONDS. -/
def setInner (env : RedisEnv) (cache : CacheState) (item_id : Nat)
    (prediction : PredictResponse) : Except String CacheState :=
  if env.started = false then Except.ok cache
  else
    match env.writeFault with
    | some f => Except.error f
    | none =>
        Except.ok
          { cache with predByItem :=
              (assocSet cache.predByItem item_id ⟨prediction, TTL_SECONDS⟩) }

/-- PredictionCacheStorage.set: the except-handler turns any raised
fault into a no-op (the cache is left as it was). -/
def set (env : RedisEnv) (cache : CacheState) (item_id : Nat)
    (prediction : PredictResponse) : CacheState :=
  match setInner env cache item_id prediction with
  | Except.ok c => c
  | Except.error _ => cache

/-- PredictionCacheStorage.get_moderation_result on an available cache:
lookup of the prediction:task namespace. -/
def get_moderation_result (cache : CacheState) (task_id : Nat) :
    Option ModerationResultResponse :=
  (assocGet cache.modByTask task_id).map (fun e => e.value)

/-- PredictionCacheStorage.set_moderation_result on an available cache:
store the response under its task id with ASYNC_TTL_SECONDS. -/
def set_moderation_result (cache : CacheState)
    (result : ModerationResultResponse) : CacheState :=
  { cache with modByTask :=
      (assocSet cache.modByTask result.task_id ⟨result, ASYNC_TTL_SECONDS⟩) }

/-- Modelled from the spec: PredictionCacheStorage.delete(item_id) is
absent from src/ (it is exercised only by the unit tests); per section
4.4 it removes the prediction:item:N entry. -/
def delete (cache : CacheState) (item_id : Nat) : CacheState :=
  { cache with predByItem := assocDel cache.predByItem item_id }

/-- Modelled from the spec: PredictionCacheStorage.delete_moderation_result
(task_id) is absent from src/ (it is exercised only by the unit tests);
per section 4.4 it removes the prediction:task:N entry. -/
def delete_moderation_result (cache : CacheState) (task_id : Nat) : CacheState :=
  { cache with modByTask := assocDel cache.modByTask task_id }

end PredictionCacheStorage

/- Producer-side service -/

/-- Errors AsyncModerationService.submit_moderation_request surfaces:
the AdNotFoundError it raises itself, or the re-raised Kafka send
exception. -/
inductive SubmitError where
  | adNotFound (msg : String)
  | kafkaError (msg : String)
deriving DecidableEq, Repr

/-- Producer-side observable effects. -/
inductive SubmitEffect where
  | enqueued (m : QueueMessage)
deriving DecidableEq, Repr

/-- Collaborator outcomes for one submit_moderation_request call: the
ad lookup, the task id the INSERT allocates, whether the Kafka send
raises, the message timestamp and the store clock. -/
structure SubmitEnv where
  adLookup : Nat → Option Ad
  nextTaskId : Nat
  enqueueErr : Option String
  timestamp : String
  now : Nat

/-- The row INSERT INTO moderation_results (item_id, status) creates
(ModerationResultRepository.create with status pending): every other
column starts NULL. -/
def newPendingRow (task_id item_id : Nat) : ModerationRow :=
  { id := task_id
    item_id := item_id
    status := Status.pending
    is_violation := none
    probability := none
    error_message := none
    processed_at := none }

/-- AsyncModerationService.submit_moderation_request: check the ad
exists (AdNotFound otherwise), create the pending row, send the Kafka
message; if the send raises, mark the created task failed via the
repository and re-raise. -/
def submit_moderation_request (env : SubmitEnv) (item_id : Nat)
    (db : List ModerationRow) :
    Except SubmitError Nat × List ModerationRow × List SubmitEffect :=
  match env.adLookup item_id with
  | none =>
      (Except.error (SubmitError.adNotFound
          ("Ad with ID " ++ toString item_id ++ " not found")), db, [])
  | some _ =>
      let db1 := db ++ [newPendingRow env.nextTaskId item_id]
      match env.enqueueErr with
      | none =>
          (Except.ok env.nextTaskId, db1,
           [SubmitEffect.enqueued
              (KafkaProducer.send_moderation_request item_id env.nextTaskId
                env.timestamp)])
      | some e =>
          let db2 := ModerationResultRepository.update_failed db1 env.nextTaskId
            ("Kafka send error: " ++ e) env.now
          (Except.error (SubmitError.kafkaError e), db2, [])

/-- ModerationRow rendered as the polling response
(AsyncModerationService.get_moderation_result's return value). -/
def rowToResponse (r : ModerationRow) : ModerationResultResponse :=
  { task_id := r.id
    status := r.status
    is_violation := r.is_violation
    probability := r.probability
    error_message := r.error_message }

/-- AsyncModerationService.get_moderation_result: read the store row by
task id and raise ModerationResultNotFound when absent.  The cache
state is threaded through untouched, mirroring that the source method
performs no cache access at all. -/
def AsyncModerationService.get_moderation_result (db : List ModerationRow)
    (cache : CacheState) (task_id : Nat) :
    Except String ModerationResultResponse × CacheState :=
  match ModerationResultRepository.get_by_id db task_id with
  | none =>
      (Except.error ("Moderation task with ID " ++ toString task_id ++ " not found"),
       cache)
  | some row => (Except.ok (rowToResponse row), cache)

/-- The spec's description of getModerationResult (section 4.2), stated
as a definition for comparison with the source:
read-through cache lookup keyed by task id, on miss read the store row
(ModerationResultNotFound when absent) and populate the cache with the
5-minute TTL before returning. -/
def getModerationResultSpec (db : List ModerationRow) (cache : CacheState)
    (task_id : Nat) : Except String ModerationResultResponse × CacheState :=
  match PredictionCacheStorage.get_moderation_result cache task_id with
  | some r => (Except.ok r, cache)
  | none =>
    match ModerationResultRepository.get_by_id db task_id with
    | none =>
        (Except.error ("Moderation task with ID " ++ toString task_id ++ " not found"),
         cache)
    | some row =>
        (Except.ok (rowToResponse row),
         PredictionCacheStorage.set_moderation_result cache (rowToResponse row))

/- Ad closure cascade -/

/-- The whole mutable state the closure cascade touches: the ads table,
the moderation_results table and the cache. -/
structure SysState where
  ads : List Ad
  results : List ModerationRow
  cache : CacheState
deriving Repr

/-- AdRepository.delete(ad_id): DELETE FROM ads WHERE id = $1. -/
def AdRepository.delete (ads : List Ad) (ad_id : Nat) : List Ad :=
  ads.filter (fun a => a.id != ad_id)

/-- AdRepository.get_by_id: SELECT ... FROM ads WHERE id = $1. -/
def AdRepository.get_by_id (ads : List Ad) (ad_id : Nat) : Option Ad :=
  ads.find? (fun a => a.id == ad_id)

/-- Modelled from the spec: ModerationService.close_ad is absent from
src/services/moderation.py (only its unit tests, endpoint patches and
integration tests reference it).  Per spec sections 4.4/8 and the
recorded call contract of the unit test: verify the ad exists
(AdNotFound otherwise), collect the item's task ids, delete the item's
moderation_results rows, delete the Ad row, and explicitly invalidate
both cache namespaces (delete(item_id) plus delete_moderation_result
for each collected task id). -/
def ModerationService.close_ad (s : SysState) (item_id : Nat) :
    Except String SysState :=
  match AdRepository.get_by_id s.ads item_id with
  | none => Except.error ("Ad with ID " ++ toString item_id ++ " not found")
  | some _ =>
      let taskIds := ModerationResultRepository.get_task_ids_by_item_id
        s.results item_id
      let results' := (ModerationResultRepository.delete_by_item_id
        s.results item_id).1
      let ads' := AdRepository.delete s.ads item_id
      let cache1 := PredictionCacheStorage.delete s.cache item_id
      let cache2 := taskIds.foldl
        (fun c t => PredictionCacheStorage.delete_moderation_result c t) cache1
      Except.ok { ads := ads', results := results', cache := cache2 }

/- ------------------------------------------------------------------ -/
/- Claim C1                                                            -/
/- ------------------------------------------------------------------ -/

/-- A task already in a terminal state, used to probe the repository's
mutation operations. -/
def sampleCompletedRow : ModerationRow :=
  { id := 1
    item_id := 7
    status := Status.completed
    is_violation := some true
    probability := some 1
    error_message := none
    processed_at := some 0 }

/-- What the repository's unguarded updateFailed turns sampleCompletedRow
into. -/
def sampleOverwrittenRow : ModerationRow :=
  { id := 1
    item_id := 7
    status := Status.failed
    is_violation := some true
    probability := some 1
    error_message := some "boom"
    processed_at := some 3 }

/-- Claim C1 is false on the code: the repository's updateFailed has no
status predicate, so applying it to a task already completed rewrites
the row (status, error_message and processed_at all change) instead of
being a silent no-op. -/
theorem c1_counterexample :
    sampleCompletedRow.status = Status.completed ∧
    (ModerationResultRepository.update_failed [sampleCompletedRow] 1 "boom" 3).map
        (fun r => r.status) = [Status.failed] ∧
    ModerationResultRepository.update_failed [sampleCompletedRow] 1 "boom" 3 ≠
      [sampleCompletedRow] := by
  refine ⟨rfl, rfl, ?_⟩
  decide

/-- Claim C1 (amended): updateCompleted and updateFailed update the row
with the given task id unconditionally — their WHERE clause matches on
id only, so a task already in a terminal state is overwritten.  The
pending-only guard exists only in the Worker's inline updates
(WHERE item_id AND status = pending), which do leave every
non-pending row unchanged. -/
theorem c1_update_unconditional (db : List ModerationRow) (t : Nat) (v : Bool)
    (p : Rat) (msg : String) (now : Nat) :
    (∀ (k : Nat) (r : ModerationRow), db[k]? = some r → r.id = t →
        (ModerationResultRepository.update_completed db t v p now)[k]? =
          some { r with status := Status.completed, is_violation := some v,
                        probability := some p, processed_at := some now } ∧
        (ModerationResultRepository.update_failed db t msg now)[k]? =
          some { r with status := Status.failed, error_message := some msg,
                        processed_at := some now }) ∧
    (∀ (k : Nat) (r : ModerationRow), db[k]? = some r → r.status ≠ Status.pending →
        ((workerUpdateCompleted db r.item_id v p now).1)[k]? = some r ∧
        ((workerUpdateFailed db r.item_id msg now).1)[k]? = some r) := by
  constructor
  · intro k r hk hid
    constructor
    · simp [ModerationResultRepository.update_completed, List.getElem?_map, hk, hid]
    · simp [ModerationResultRepository.update_failed, List.getElem?_map, hk, hid]
  · intro k r hk hst
    constructor
    · simp [workerUpdateCompleted, List.getElem?_map, hk, hst]
    · simp [workerUpdateFailed, List.getElem?_map, hk, hst]

/-- Witness for c1_update_unconditional at a concrete store: the
repository update overwrites the completed row, the worker's inline
update leaves it alone. -/
theorem c1_update_unconditional_witness :
    (ModerationResultRepository.update_failed [sampleCompletedRow] 1 "boom" 3)[0]? =
      some sampleOverwrittenRow ∧
    ((workerUpdateFailed [sampleCompletedRow] sampleCompletedRow.item_id "boom" 3).1)[0]? =
      some sampleCompletedRow := by
  have h := c1_update_unconditional [sampleCompletedRow] 1 true 1 "boom" 3
  exact ⟨(h.1 0 sampleCompletedRow (by decide) (by decide)).2,
         (h.2 0 sampleCompletedRow (by decide) (by decide)).2⟩


/- ------------------------------------------------------------------ -/
/- Claim C2                                                            -/
/- ------------------------------------------------------------------ -/

/-- A completed store row for probing the polling path. -/
def c2row : ModerationRow :=
  { id := 5
    item_id := 9
    status := Status.completed
    is_violation := some false
    probability := some 1
    error_message := none
    processed_at := some 2 }

/-- A stale cached response for the same task id, deliberately different
from the store row's response. -/
def c2cached : ModerationResultResponse :=
  { task_id := 5
    status := Status.pending
    is_violation := none
    probability := none
    error_message := none }

/-- A cache holding the stale entry for task 5. -/
def c2cache : CacheState :=
  { predByItem := []
    modByTask := [(5, ⟨c2cached, 300⟩)] }

/-- The empty cache. -/
def emptyCache : CacheState :=
  { predByItem := []
    modByTask := [] }

/-- Claim C2 is false on the code: get_moderation_result performs no
cache access.  With a cache entry present for task 5 the claimed
read-through would return the cached response, but the service returns
the store row; and on an empty cache the claimed behaviour would
populate the cache after the store read, but the service leaves the
cache empty. -/
theorem c2_counterexample :
    PredictionCacheStorage.get_moderation_result c2cache 5 = some c2cached ∧
    (AsyncModerationService.get_moderation_result [c2row] c2cache 5).1 =
      Except.ok (rowToResponse c2row) ∧
    rowToResponse c2row ≠ c2cached ∧
    (getModerationResultSpec [c2row] c2cache 5).1 = Except.ok c2cached ∧
    (AsyncModerationService.get_moderation_result [c2row] emptyCache 5).2 =
      emptyCache ∧
    (getModerationResultSpec [c2row] emptyCache 5).2 ≠ emptyCache := by
  refine ⟨rfl, rfl, by decide, rfl, rfl, by decide⟩

/-- Claim C2 (amended): getModerationResult(taskId) performs no cache
access at all: it reads the Result Store row directly, fails with
ModerationResultNotFound if no row exists, returns the row's fields
otherwise, and leaves the cache untouched in every case.  The
moderation-result cache namespace (with its 5-minute TTL) exists in
PredictionCacheStorage but this path neither consults nor populates
it. -/
theorem c2_store_only (db : List ModerationRow) (cache : CacheState) (t : Nat) :
    (AsyncModerationService.get_moderation_result db cache t).2 = cache ∧
    (∀ row, ModerationResultRepository.get_by_id db t = some row →
        (AsyncModerationService.get_moderation_result db cache t).1 =
          Except.ok (rowToResponse row)) ∧
    (ModerationResultRepository.get_by_id db t = none →
        (AsyncModerationService.get_moderation_result db cache t).1 =
          Except.error ("Moderation task with ID " ++ toString t ++ " not found")) := by
  refine ⟨?_, ?_, ?_⟩
  · cases h : ModerationResultRepository.get_by_id db t <;>
      simp [AsyncModerationService.get_moderation_result, h]
  · intro row hrow
    simp [AsyncModerationService.get_moderation_result, hrow]
  · intro hnone
    simp [AsyncModerationService.get_moderation_result, hnone]

/-- Witness for c2_store_only: on the concrete store holding task 5 the
service returns the store row and returns the cache unchanged. -/
theorem c2_store_only_witness :
    (AsyncModerationService.get_moderation_result [c2row] c2cache 5).1 =
      Except.ok (rowToResponse c2row) ∧
    (AsyncModerationService.get_moderation_result [c2row] c2cache 5).2 =
      c2cache := by
  have h := c2_store_only [c2row] c2cache 5
  exact ⟨h.2.1 c2row (by rfl), h.1⟩

/- ------------------------------------------------------------------ -/
/- Claim C3                                                            -/
/- ------------------------------------------------------------------ -/

theorem assocGet_del_self {α : Type} (l : List (Nat × α)) (k : Nat) :
    assocGet (assocDel l k) k = none := by
  induction l with
  | nil => rfl
  | cons p tl ih =>
      by_cases h : p.1 = k
      · simpa [assocDel, h] using ih
      · simpa [assocDel, assocGet, h] using ih

theorem assocGet_del_of_none {α : Type} (l : List (Nat × α)) (k u : Nat)
    (h : assocGet l k = none) : assocGet (assocDel l u) k = none := by
  induction l with
  | nil => rfl
  | cons p tl ih =>
      by_cases hp : p.1 = k
      · simp [assocGet, hp] at h
      · by_cases hu : p.1 = u
        · simp only [assocGet, hp, if_neg hp] at h
          simpa [assocDel, hu] using ih h
        · simp only [assocGet, hp, if_neg hp] at h
          simp only [assocDel, hu, if_neg hu, assocGet, if_neg hp]
          exact ih h

theorem assocGet_foldl_del_of_none {α : Type} (ts : List Nat)
    (l : List (Nat × α)) (k : Nat) (h : assocGet l k = none) :
    assocGet (ts.foldl (fun acc u => assocDel acc u) l) k = none := by
  induction ts generalizing l with
  | nil => simpa using h
  | cons u ts ih =>
      simpa [List.foldl_cons] using ih (assocDel l u) (assocGet_del_of_none l k u h)

theorem assocGet_foldl_del_of_mem {α : Type} (ts : List Nat)
    (l : List (Nat × α)) (k : Nat) (h : k ∈ ts) :
    assocGet (ts.foldl (fun acc u => assocDel acc u) l) k = none := by
  induction ts generalizing l with
  | nil => cases h
  | cons u ts ih =>
      rcases List.mem_cons.mp h with rfl | hmem
      · exact assocGet_foldl_del_of_none ts (assocDel l k) k (assocGet_del_self l k)
      · exact ih (assocDel l u) hmem


/-- Deleting moderation-result cache keys leaves the prediction
namespace alone and composes to assocDel folds on the task namespace. -/
theorem foldl_delete_moderation_result (ts : List Nat) (c : CacheState) :
    (ts.foldl (fun acc t =>
        PredictionCacheStorage.delete_moderation_result acc t) c).modByTask =
      ts.foldl (fun acc u => assocDel acc u) c.modByTask ∧
    (ts.foldl (fun acc t =>
        PredictionCacheStorage.delete_moderation_result acc t) c).predByItem =
      c.predByItem := by
  induction ts generalizing c with
  | nil => exact ⟨rfl, rfl⟩
  | cons u ts ih =>
      simpa [List.foldl_cons, PredictionCacheStorage.delete_moderation_result]
        using ih { c with modByTask := assocDel c.modByTask u }

theorem mem_get_task_ids (db : List ModerationRow) (i t : Nat) :
    t ∈ ModerationResultRepository.get_task_ids_by_item_id db i ↔
      ∃ r ∈ db, r.item_id = i ∧ r.id = t := by
  simp only [ModerationResultRepository.get_task_ids_by_item_id, List.mem_map,
    List.mem_filter, beq_iff_eq]
  constructor
  · rintro ⟨r, ⟨hr, hi⟩, rfl⟩
    exact ⟨r, hr, hi, rfl⟩
  · rintro ⟨r, hr, hi, rfl⟩
    exact ⟨r, ⟨hr, hi⟩, rfl⟩

/-- Claim C3: closing an existing ad removes the Ad row, every
moderation_results row of the item, and both cache namespaces for the
item / its task ids, so subsequent lookups for the ad, the item's
tasks, the cached prediction and each cached task result all come back
not-found / miss.  Task-id store lookups need the store's primary-key
uniqueness, taken as a hypothesis. -/
theorem c3_close_cascade (s : SysState) (item_id : Nat) (a : Ad)
    (ha : AdRepository.get_by_id s.ads item_id = some a)
    (hids : ∀ r1 ∈ s.results, ∀ r2 ∈ s.results, r1.id = r2.id → r1 = r2) :
    ∃ s', ModerationService.close_ad s item_id = Except.ok s' ∧
      AdRepository.get_by_id s'.ads item_id = none ∧
      (∀ r ∈ s'.results, r.item_id ≠ item_id) ∧
      ModerationResultRepository.get_task_ids_by_item_id s'.results item_id = [] ∧
      assocGet s'.cache.predByItem item_id = none ∧
      (∀ t ∈ ModerationResultRepository.get_task_ids_by_item_id s.results item_id,
        ModerationResultRepository.get_by_id s'.results t = none ∧
        PredictionCacheStorage.get_moderation_result s'.cache t = none) := by
  have hclose : ModerationService.close_ad s item_id = Except.ok
      { ads := AdRepository.delete s.ads item_id
        results := (ModerationResultRepository.delete_by_item_id s.results item_id).1
        cache := List.foldl
          (fun c t => PredictionCacheStorage.delete_moderation_result c t)
          (PredictionCacheStorage.delete s.cache item_id)
          (ModerationResultRepository.get_task_ids_by_item_id s.results item_id) } := by
    simp [ModerationService.close_ad, ha]
  refine ⟨_, hclose, ?_, ?_, ?_, ?_, ?_⟩
  · simp only [AdRepository.get_by_id, List.find?_eq_none, List.mem_filter,
      AdRepository.delete, bne_iff_ne, beq_iff_eq]
    rintro a' ⟨_, hne⟩ rfl
    exact hne rfl
  · intro r hr
    simp only [ModerationResultRepository.delete_by_item_id, List.mem_filter,
      bne_iff_ne] at hr
    exact hr.2
  · simp only [ModerationResultRepository.get_task_ids_by_item_id,
      List.map_eq_nil_iff, List.filter_eq_nil_iff, beq_iff_eq,
      ModerationResultRepository.delete_by_item_id, List.mem_filter, bne_iff_ne]
    rintro r ⟨_, hne⟩
    exact hne
  · rw [(foldl_delete_moderation_result _ _).2]
    exact assocGet_del_self s.cache.predByItem item_id
  · intro t ht
    constructor
    · rcases (mem_get_task_ids s.results item_id t).mp ht with ⟨r0, hr0, hitem, hid⟩
      simp only [ModerationResultRepository.get_by_id, List.find?_eq_none,
        beq_iff_eq, ModerationResultRepository.delete_by_item_id,
        List.mem_filter, bne_iff_ne]
      rintro r' ⟨hr', hne⟩ hideq
      exact hne (by rw [hids r' hr' r0 hr0 (hideq.trans hid.symm)]; exact hitem)
    · unfold PredictionCacheStorage.get_moderation_result
      rw [(foldl_delete_moderation_result _ _).1,
          assocGet_foldl_del_of_mem _ _ t ht]
      rfl

/-- A concrete ad for the closure-cascade witness. -/
def c3ad : Ad :=
  { id := 100
    seller_id := 1
    name := "ad"
    description := "d"
    category := 1
    images_qty := 0
    is_closed := false
    seller_is_verified := some true }

/-- A concrete system state: one ad with two moderation tasks, a cached
prediction for the item and a cached result for one of the tasks. -/
def c3state : SysState :=
  { ads := [c3ad]
    results :=
      [{ id := 11, item_id := 100, status := Status.completed,
         is_violation := some true, probability := some 1,
         error_message := none, processed_at := some 1 },
       { id := 12, item_id := 100, status := Status.pending,
         is_violation := none, probability := none,
         error_message := none, processed_at := none }]
    cache :=
      { predByItem := [(100, ⟨⟨true, 1⟩, 900⟩)]
        modByTask := [(11, ⟨⟨11, Status.completed, some true, some 1, none⟩, 300⟩)] } }

/-- Witness for c3_close_cascade on the concrete state. -/
theorem c3_close_cascade_witness :
    ∃ s', ModerationService.close_ad c3state 100 = Except.ok s' ∧
      AdRepository.get_by_id s'.ads 100 = none ∧
      (∀ r ∈ s'.results, r.item_id ≠ 100) ∧
      ModerationResultRepository.get_task_ids_by_item_id s'.results 100 = [] ∧
      assocGet s'.cache.predByItem 100 = none ∧
      (∀ t ∈ ModerationResultRepository.get_task_ids_by_item_id c3state.results 100,
        ModerationResultRepository.get_by_id s'.results t = none ∧
        PredictionCacheStorage.get_moderation_result s'.cache t = none) :=
  c3_close_cascade c3state 100 c3ad (by decide) (by decide)

/- ------------------------------------------------------------------ -/
/- Worker retry-policy lemmas (claims C4, C5, C6, C10)                 -/
/- ------------------------------------------------------------------ -/

theorem sentRetry_mem_schedule (env : WorkerEnv) (msg : KafkaMessage)
    (err : String) (q : QueueMessage)
    (h : Effect.sentRetry q ∈ schedule_retry env msg err) :
    q.retry_count = some (retryCountOf msg.value + 1) ∧
    q.last_error = some err := by
  unfold schedule_retry at h
  cases henq : env.retryEnqueueErr with
  | none =>
      simp only [henq] at h
      simp at h
      subst h
      exact ⟨rfl, rfl⟩
  | some e =>
      simp only [henq] at h
      simp [send_to_dlq] at h

theorem handleError_no_retry_of_ge (env : WorkerEnv) (msg : KafkaMessage)
    (db : List ModerationRow) (e : PyErr)
    (hge : MAX_RETRIES ≤ retryCountOf msg.value) :
    ∀ q, Effect.sentRetry q ∉ (handleWorkerError env msg db e).2 := by
  intro q hq
  unfold handleWorkerError at hq
  rw [if_neg (Nat.not_lt.mpr hge)] at hq
  cases ht : truthyItem msg.value.item_id with
  | some i =>
      simp only [ht, List.mem_append] at hq
      rcases hq with hq | hq
      · split at hq <;> simp at hq
      · simp [send_to_dlq] at hq
  | none =>
      simp only [ht] at hq
      simp [send_to_dlq] at hq

theorem handleError_dlq_of_ge (env : WorkerEnv) (msg : KafkaMessage)
    (db : List ModerationRow) (e : PyErr)
    (hge : MAX_RETRIES ≤ retryCountOf msg.value) :
    ∃ d, Effect.sentDLQ d ∈ (handleWorkerError env msg db e).2 ∧
      d.error_type = ErrorType.max_retries_exceeded := by
  unfold handleWorkerError
  rw [if_neg (Nat.not_lt.mpr hge)]
  cases ht : truthyItem msg.value.item_id with
  | some i =>
      simp only [ht]
      refine ⟨dlqMessage env msg (workerErrMsg e) false, ?_, rfl⟩
      simp [send_to_dlq]
  | none =>
      simp only [ht]
      exact ⟨dlqMessage env msg (workerErrMsg e) false, by simp [send_to_dlq], rfl⟩

theorem handleError_retry_count (env : WorkerEnv) (msg : KafkaMessage)
    (db : List ModerationRow) (e : PyErr) (q : QueueMessage)
    (h : Effect.sentRetry q ∈ (handleWorkerError env msg db e).2) :
    q.retry_count = some (retryCountOf msg.value + 1) ∧
    q.last_error.isSome = true := by
  by_cases hrc : retryCountOf msg.value < MAX_RETRIES
  · unfold handleWorkerError at h
    rw [if_pos hrc] at h
    obtain ⟨h1, h2⟩ := sentRetry_mem_schedule env msg _ q h
    exact ⟨h1, by simp [h2]⟩
  · exact absurd h
      (handleError_no_retry_of_ge env msg db e (Nat.not_lt.mp hrc) q)

theorem process_retry_mem (env : WorkerEnv) (msg : KafkaMessage)
    (db : List ModerationRow) (q : QueueMessage)
    (h : Effect.sentRetry q ∈ (process_message env msg db).2) :
    ∃ e, retryableFailure env msg = some e ∧
      Effect.sentRetry q ∈ (handleWorkerError env msg db e).2 := by
  unfold process_message at h
  cases h1 : truthyItem msg.value.item_id with
  | none =>
      simp only [h1] at h
      simp [send_to_dlq] at h
  | some i =>
    simp only [h1] at h
    cases h2 : env.adLookup i with
    | none =>
        simp only [h2, List.mem_append] at h
        rcases h with h | h
        · split at h <;> simp at h
        · simp [send_to_dlq] at h
    | some ad =>
      simp only [h2] at h
      cases h3 : env.predict ad with
      | error e =>
          simp only [h3] at h
          exact ⟨e, by simp [retryableFailure, h1, h2, h3], h⟩
      | ok vp =>
        obtain ⟨v, p⟩ := vp
        simp only [h3] at h
        cases h4 : env.updateErr with
        | some e =>
            simp only [h4] at h
            exact ⟨e, by simp [retryableFailure, h1, h2, h3, h4], h⟩
        | none =>
            simp only [h4] at h
            split at h <;> simp at h

theorem process_eq_handle (env : WorkerEnv) (msg : KafkaMessage)
    (db : List ModerationRow) (e : PyErr)
    (h : retryableFailure env msg = some e) :
    process_message env msg db = handleWorkerError env msg db e := by
  unfold retryableFailure at h
  unfold process_message
  cases h1 : truthyItem msg.value.item_id with
  | none =>
      simp only [h1] at h
      cases h
  | some i =>
    simp only [h1] at h ⊢
    cases h2 : env.adLookup i with
    | none =>
        simp only [h2] at h
        cases h
    | some ad =>
      simp only [h2] at h ⊢
      cases h3 : env.predict ad with
      | error e' =>
          simp only [h3] at h ⊢
          cases h
          rfl
      | ok vp =>
          obtain ⟨v, p⟩ := vp
          simp only [h3] at h ⊢
          simp only [h]

/- ------------------------------------------------------------------ -/
/- Claim C4                                                            -/
/- ------------------------------------------------------------------ -/

/-- Claim C4: every message the Worker reschedules carries
retry_count equal to the consumed message's retry_count plus exactly 1
and a last_error; and a message whose retry_count already reached
MAX_RETRIES (3) is never rescheduled — whenever its processing hits a
retryable failure it is routed to the DLQ with error_type
max_retries_exceeded. -/
theorem c4_retry_policy (env : WorkerEnv) (msg : KafkaMessage)
    (db : List ModerationRow) :
    (∀ q, Effect.sentRetry q ∈ (process_message env msg db).2 →
        q.retry_count = some (retryCountOf msg.value + 1) ∧
        q.last_error.isSome = true) ∧
    (MAX_RETRIES ≤ retryCountOf msg.value →
      (∀ q, Effect.sentRetry q ∉ (process_message env msg db).2) ∧
      (∀ e, retryableFailure env msg = some e →
        ∃ d, Effect.sentDLQ d ∈ (process_message env msg db).2 ∧
          d.error_type = ErrorType.max_retries_exceeded)) := by
  refine ⟨?_, fun hge => ⟨?_, ?_⟩⟩
  · intro q hq
    obtain ⟨e, _, hmem⟩ := process_retry_mem env msg db q hq
    exact handleError_retry_count env msg db e q hmem
  · intro q hq
    obtain ⟨e, _, hmem⟩ := process_retry_mem env msg db q hq
    exact handleError_no_retry_of_ge env msg db e hge q hmem
  · intro e he
    rw [process_eq_handle env msg db e he]
    exact handleError_dlq_of_ge env msg db e hge

/-- The ad the witness environments serve. -/
def wAd : Ad :=
  { id := 5
    seller_id := 2
    name := "ad"
    description := "d"
    category := 1
    images_qty := 2
    is_closed := false
    seller_is_verified := some false }

/-- A worker environment whose classifier raises a RuntimeError. -/
def c4env : WorkerEnv :=
  { adLookup := fun _ => some wAd
    predict := fun _ => Except.error (PyErr.runtime "model down")
    updateErr := none
    retryEnqueueErr := none
    now := 10 }

/-- A first-delivery message for item 5. -/
def c4msg : KafkaMessage :=
  { value := { item_id := some 5, task_id := some 77, timestamp := some "t0",
               retry_count := some 0, last_error := none }
    topic := "moderation"
    partition := 0
    offset := 1 }

/-- The same message after three reschedules. -/
def c4msg3 : KafkaMessage :=
  { value := { item_id := some 5, task_id := none, timestamp := some "t0",
               retry_count := some 3, last_error := some "Transient error: model down" }
    topic := "moderation"
    partition := 0
    offset := 4 }

/-- The replacement message the worker enqueues for c4msg. -/
def c4retryMsg : QueueMessage :=
  { item_id := some 5
    task_id := none
    timestamp := some "t0"
    retry_count := some 1
    last_error := some "Transient error: model down" }

/-- Witness for c4_retry_policy: a concrete classifier failure at
retry_count 0 produces a reschedule with retry_count 1, and at
retry_count 3 produces no reschedule but a max_retries_exceeded DLQ
message. -/
theorem c4_retry_policy_witness :
    (Effect.sentRetry c4retryMsg ∈ (process_message c4env c4msg []).2 ∧
      c4retryMsg.retry_count = some (retryCountOf c4msg.value + 1) ∧
      c4retryMsg.last_error.isSome = true) ∧
    (MAX_RETRIES ≤ retryCountOf c4msg3.value ∧
      (∀ q, Effect.sentRetry q ∉ (process_message c4env c4msg3 []).2) ∧
      ∃ d, Effect.sentDLQ d ∈ (process_message c4env c4msg3 []).2 ∧
        d.error_type = ErrorType.max_retries_exceeded) := by
  constructor
  · have hm : Effect.sentRetry c4retryMsg ∈ (process_message c4env c4msg []).2 := by
      decide
    exact ⟨hm, (c4_retry_policy c4env c4msg []).1 c4retryMsg hm⟩
  · have hge : MAX_RETRIES ≤ retryCountOf c4msg3.value := by decide
    have h2 := (c4_retry_policy c4env c4msg3 []).2 hge
    exact ⟨hge, h2.1, h2.2 (PyErr.runtime "model down") (by decide)⟩

/- ------------------------------------------------------------------ -/
/- Claim C5                                                            -/
/- ------------------------------------------------------------------ -/

theorem map_id_of_mem {α : Type} (l : List α) (f : α → α)
    (h : ∀ x ∈ l, f x = x) : l.map f = l := by
  induction l with
  | nil => rfl
  | cons a tl ih =>
      simp only [List.map_cons, h a (List.mem_cons_self a tl)]
      rw [ih (fun x hx => h x (List.mem_cons_of_mem a hx))]

/-- Claim C5: the Worker's step-4 update turns into completed exactly
the rows whose item matches and whose status is still pending; every
other row keeps its position and value (no terminal-state row is ever
overwritten); and when no pending row exists for the item the whole
step is a logged no-op — the store is unchanged, nothing is sent to
the DLQ or rescheduled, and process_message returns normally. -/
theorem c5_pending_guard (db : List ModerationRow) (i : Nat) (v : Bool)
    (p : Rat) (now : Nat) (env : WorkerEnv) (msg : KafkaMessage) (ad : Ad) :
    (∀ (k : Nat) (r : ModerationRow), db[k]? = some r →
        r.item_id = i → r.status = Status.pending →
        ((workerUpdateCompleted db i v p now).1)[k]? =
          some { r with status := Status.completed, is_violation := some v,
                        probability := some p, processed_at := some now }) ∧
    (∀ (k : Nat) (r : ModerationRow), db[k]? = some r →
        ¬(r.item_id = i ∧ r.status = Status.pending) →
        ((workerUpdateCompleted db i v p now).1)[k]? = some r) ∧
    (truthyItem msg.value.item_id = some i → env.adLookup i = some ad →
      env.predict ad = Except.ok (v, p) → env.updateErr = none →
      env.now = now →
      (∀ r ∈ db, ¬(r.item_id = i ∧ r.status = Status.pending)) →
      process_message env msg db = (db, [Effect.noPendingNoOp])) := by
  refine ⟨?_, ?_, ?_⟩
  · intro k r hk hi hst
    simp [workerUpdateCompleted, List.getElem?_map, hk, hi, hst]
  · intro k r hk hcond
    simp [workerUpdateCompleted, List.getElem?_map, hk, hcond]
  · intro h1 h2 h3 h4 h5 hnone
    unfold process_message
    simp only [h1, h2, h3, h4, h5]
    have hfil : db.filter
        (fun r => r.item_id == i && r.status == Status.pending) = [] := by
      rw [List.filter_eq_nil_iff]
      intro r hr
      simpa using hnone r hr
    have hmap : db.map (fun r =>
        if r.item_id = i ∧ r.status = Status.pending then
          { r with status := Status.completed, is_violation := some v,
                   probability := some p, processed_at := some now }
        else r) = db :=
      map_id_of_mem _ _ (fun r hr => if_neg (hnone r hr))
    simp [workerUpdateCompleted, hfil, hmap]

/-- A store where item 5's only task is already completed. -/
def c5db : List ModerationRow :=
  [{ id := 21, item_id := 5, status := Status.completed,
     is_violation := some true, probability := some 1,
     error_message := none, processed_at := some 4 }]

/-- A worker environment whose classifier succeeds with (true, 1). -/
def c5env : WorkerEnv :=
  { adLookup := fun _ => some wAd
    predict := fun _ => Except.ok (true, 1)
    updateErr := none
    retryEnqueueErr := none
    now := 10 }

/-- Witness for c5_pending_guard: redelivery after the task was already
resolved leaves the store untouched and yields only the no-op log. -/
theorem c5_pending_guard_witness :
    process_message c5env c4msg c5db = (c5db, [Effect.noPendingNoOp]) :=
  (c5_pending_guard c5db 5 true 1 10 c5env c4msg wAd).2.2
    (by decide) (by rfl) (by rfl) (by rfl) (by rfl) (by decide)

/- ------------------------------------------------------------------ -/
/- Claim C6                                                            -/
/- ------------------------------------------------------------------ -/

/-- Claim C6: permanent errors bypass the retry budget — a message with
a missing (falsy) item id goes straight to the DLQ with error_type
permanent, untouched store, no retry regardless of retry_count; a
message whose ad lookup finds no ad marks the item's pending tasks
failed and goes to the DLQ with error_type permanent, again with no
retry; and a reschedule can only ever arise from a failure raised in
the prediction/update part of the pipeline. -/
theorem c6_permanent_bypass (env : WorkerEnv) (msg : KafkaMessage)
    (db : List ModerationRow) :
    (truthyItem msg.value.item_id = none →
        process_message env msg db =
          (db, [Effect.sentDLQ (dlqMessage env msg "Missing item_id in message" true)]) ∧
        (dlqMessage env msg "Missing item_id in message" true).error_type =
          ErrorType.permanent) ∧
    (∀ i, truthyItem msg.value.item_id = some i → env.adLookup i = none →
        (process_message env msg db).1 =
          (workerUpdateFailed db i ("Ad not found: item_id=" ++ toString i)
            env.now).1 ∧
        (∀ q, Effect.sentRetry q ∉ (process_message env msg db).2) ∧
        (∃ d, Effect.sentDLQ d ∈ (process_message env msg db).2 ∧
            d.error_type = ErrorType.permanent)) ∧
    (∀ q, Effect.sentRetry q ∈ (process_message env msg db).2 →
        retryableFailure env msg ≠ none) := by
  refine ⟨?_, ?_, ?_⟩
  · intro h1
    refine ⟨?_, rfl⟩
    unfold process_message
    simp only [h1, send_to_dlq]
  · intro i h1 h2
    refine ⟨?_, ?_, ?_⟩
    · unfold process_message
      simp only [h1, h2]
    · intro q hq
      unfold process_message at hq
      simp only [h1, h2, List.mem_append] at hq
      rcases hq with hq | hq
      · split at hq <;> simp at hq
      · simp [send_to_dlq] at hq
    · unfold process_message
      simp only [h1, h2]
      exact ⟨dlqMessage env msg ("Ad not found: item_id=" ++ toString i) true,
        by simp [send_to_dlq], rfl⟩
  · intro q hq
    obtain ⟨e, he, _⟩ := process_retry_mem env msg db q hq
    simp [he]

/-- A message that lacks the item_id field entirely. -/
def c6msgNoItem : KafkaMessage :=
  { value := { item_id := none, task_id := none, timestamp := some "t0",
               retry_count := some 0, last_error := none }
    topic := "moderation"
    partition := 0
    offset := 2 }

/-- An environment whose ad lookup finds nothing. -/
def c6envNoAd : WorkerEnv :=
  { adLookup := fun _ => none
    predict := fun _ => Except.ok (false, 0)
    updateErr := none
    retryEnqueueErr := none
    now := 11 }

/-- Witness for c6_permanent_bypass: the missing-item message and the
ad-less lookup each land in the DLQ as permanent without any retry. -/
theorem c6_permanent_bypass_witness :
    (process_message c6envNoAd c6msgNoItem [] =
      ([], [Effect.sentDLQ
        (dlqMessage c6envNoAd c6msgNoItem "Missing item_id in message" true)]) ∧
      (dlqMessage c6envNoAd c6msgNoItem "Missing item_id in message" true).error_type =
        ErrorType.permanent) ∧
    ((∀ q, Effect.sentRetry q ∉ (process_message c6envNoAd c4msg []).2) ∧
      ∃ d, Effect.sentDLQ d ∈ (process_message c6envNoAd c4msg []).2 ∧
        d.error_type = ErrorType.permanent) := by
  constructor
  · exact (c6_permanent_bypass c6envNoAd c6msgNoItem []).1 (by decide)
  · have h := (c6_permanent_bypass c6envNoAd c4msg []).2.1 5 (by decide) (by decide)
    exact ⟨h.2.1, h.2.2⟩

/- ------------------------------------------------------------------ -/
/- Claim C7                                                            -/
/- ------------------------------------------------------------------ -/

/-- Claim C7: submitting an item with no existing ad fails with
AdNotFound before anything else happens — the store is returned
unchanged (no pending row created) and nothing is enqueued. -/
theorem c7_ad_not_found (env : SubmitEnv) (item_id : Nat)
    (db : List ModerationRow) (h : env.adLookup item_id = none) :
    submit_moderation_request env item_id db =
      (Except.error (SubmitError.adNotFound
        ("Ad with ID " ++ toString item_id ++ " not found")), db, []) := by
  unfold submit_moderation_request
  simp only [h]

/-- A producer-side environment whose ad lookup finds nothing. -/
def c7env : SubmitEnv :=
  { adLookup := fun _ => none
    nextTaskId := 42
    enqueueErr := none
    timestamp := "t0"
    now := 7 }

/-- Witness for c7_ad_not_found at item 99999 on an empty store. -/
theorem c7_ad_not_found_witness :
    submit_moderation_request c7env 99999 [] =
      (Except.error (SubmitError.adNotFound "Ad with ID 99999 not found"),
       [], []) :=
  c7_ad_not_found c7env 99999 [] (by rfl)

/- ------------------------------------------------------------------ -/
/- Claim C8                                                            -/
/- ------------------------------------------------------------------ -/

/-- The audit row the submit path leaves behind when the enqueue
raises: the freshly created pending row flipped to failed with the
enqueue error message. -/
def failedSubmitRow (task_id item_id : Nat) (e : String) (now : Nat) :
    ModerationRow :=
  { id := task_id
    item_id := item_id
    status := Status.failed
    is_violation := none
    probability := none
    error_message := some ("Kafka send error: " ++ e)
    processed_at := some now }

/-- Claim C8: when the ad exists but the Kafka enqueue raises, the
submit path marks the just-created task failed with the enqueue error
message and propagates the failure: the result is the error, the
created row is present in failed state, every row carrying the new
task id is failed with that message, no pending row exists that was
not already pending in the input store, and nothing was enqueued. -/
theorem c8_enqueue_failure (env : SubmitEnv) (item_id : Nat)
    (db : List ModerationRow) (ad : Ad) (e : String)
    (had : env.adLookup item_id = some ad)
    (henq : env.enqueueErr = some e)
    (hfresh : ∀ r ∈ db, r.id ≠ env.nextTaskId) :
    (submit_moderation_request env item_id db).1 =
      Except.error (SubmitError.kafkaError e) ∧
    (failedSubmitRow env.nextTaskId item_id e env.now ∈
      (submit_moderation_request env item_id db).2.1) ∧
    (∀ r ∈ (submit_moderation_request env item_id db).2.1,
        r.id = env.nextTaskId →
        r.status = Status.failed ∧
        r.error_message = some ("Kafka send error: " ++ e)) ∧
    (∀ r ∈ (submit_moderation_request env item_id db).2.1,
        r.status = Status.pending → r ∈ db) ∧
    (submit_moderation_request env item_id db).2.2 = [] := by
  have hdb2 : (submit_moderation_request env item_id db).2.1 =
      ModerationResultRepository.update_failed
        (db ++ [newPendingRow env.nextTaskId item_id]) env.nextTaskId
        ("Kafka send error: " ++ e) env.now := by
    unfold submit_moderation_request
    simp only [had, henq]
  refine ⟨?_, ?_, ?_, ?_, ?_⟩
  · unfold submit_moderation_request
    simp only [had, henq]
  · rw [hdb2]
    unfold ModerationResultRepository.update_failed
    rw [List.map_append]
    refine List.mem_append.mpr (Or.inr ?_)
    simp [newPendingRow, failedSubmitRow]
  · intro r hr hid
    rw [hdb2] at hr
    unfold ModerationResultRepository.update_failed at hr
    rw [List.map_append] at hr
    rcases List.mem_append.mp hr with hr | hr
    · obtain ⟨r0, hr0, rfl⟩ := List.mem_map.mp hr
      rw [if_neg (hfresh r0 hr0)] at hid
      exact absurd hid (hfresh r0 hr0)
    · simp only [List.map_cons, List.map_nil, List.mem_singleton] at hr
      subst hr
      constructor <;> simp [newPendingRow]
  · intro r hr hpend
    rw [hdb2] at hr
    unfold ModerationResultRepository.update_failed at hr
    rw [List.map_append] at hr
    rcases List.mem_append.mp hr with hr | hr
    · obtain ⟨r0, hr0, rfl⟩ := List.mem_map.mp hr
      rw [if_neg (hfresh r0 hr0)]
      exact hr0
    · simp only [List.map_cons, List.map_nil, List.mem_singleton] at hr
      subst hr
      simp [newPendingRow] at hpend
  · unfold submit_moderation_request
    simp only [had, henq]

/-- A producer-side environment whose ad lookup succeeds and whose
Kafka send raises. -/
def c8env : SubmitEnv :=
  { adLookup := fun _ => some wAd
    nextTaskId := 42
    enqueueErr := some "kafka down"
    timestamp := "t0"
    now := 7 }

/-- Witness for c8_enqueue_failure on an empty store: the error is
propagated, the created task sits in the store as failed, and nothing
was enqueued. -/
theorem c8_enqueue_failure_witness :
    (submit_moderation_request c8env 5 []).1 =
      Except.error (SubmitError.kafkaError "kafka down") ∧
    (failedSubmitRow 42 5 "kafka down" 7 ∈
      (submit_moderation_request c8env 5 []).2.1) ∧
    (submit_moderation_request c8env 5 []).2.2 = [] := by
  have h := c8_enqueue_failure c8env 5 [] wAd "kafka down" (by rfl) (by rfl)
    (by intro r hr; cases hr)
  exact ⟨h.1, h.2.1, h.2.2.2.2⟩

/- ------------------------------------------------------------------ -/
/- Claim C9                                                            -/
/- ------------------------------------------------------------------ -/

/-- Claim C9: cache get/set degrade instead of failing — on an
unstarted client get is a miss and set is a no-op; whenever the inner
Redis operation raises (any fault the storage's except-handler would
catch) the guarded get still returns a miss and the guarded set still
returns the cache unchanged; in particular any read fault yields a
miss and any write fault yields a no-op.  The guarded operations are
total: an inner error never propagates to the caller. -/
theorem c9_cache_degrades (env : PredictionCacheStorage.RedisEnv)
    (cache : CacheState) (item_id : Nat) (p : PredictResponse) :
    (env.started = false →
        PredictionCacheStorage.get env cache item_id = none ∧
        PredictionCacheStorage.set env cache item_id p = cache) ∧
    (∀ f, PredictionCacheStorage.getInner env cache item_id = Except.error f →
        PredictionCacheStorage.get env cache item_id = none) ∧
    (∀ f, PredictionCacheStorage.setInner env cache item_id p = Except.error f →
        PredictionCacheStorage.set env cache item_id p = cache) ∧
    (env.readFault.isSome = true →
        PredictionCacheStorage.get env cache item_id = none) ∧
    (env.writeFault.isSome = true →
        PredictionCacheStorage.set env cache item_id p = cache) := by
  refine ⟨?_, ?_, ?_, ?_, ?_⟩
  · intro hs
    constructor
    · simp [PredictionCacheStorage.get, PredictionCacheStorage.getInner, hs]
    · simp [PredictionCacheStorage.set, PredictionCacheStorage.setInner, hs]
  · intro f hf
    simp [PredictionCacheStorage.get, hf]
  · intro f hf
    simp [PredictionCacheStorage.set, hf]
  · intro hrf
    obtain ⟨f, hf⟩ := Option.isSome_iff_exists.mp hrf
    cases hs : env.started
    · simp [PredictionCacheStorage.get, PredictionCacheStorage.getInner, hs]
    · simp [PredictionCacheStorage.get, PredictionCacheStorage.getInner, hs, hf]
  · intro hwf
    obtain ⟨f, hf⟩ := Option.isSome_iff_exists.mp hwf
    cases hs : env.started
    · simp [PredictionCacheStorage.set, PredictionCacheStorage.setInner, hs]
    · simp [PredictionCacheStorage.set, PredictionCacheStorage.setInner, hs, hf]

/-- A Redis client that was never started. -/
def c9envDown : PredictionCacheStorage.RedisEnv :=
  { started := false, readFault := none, writeFault := none }

/-- A started Redis client whose operations raise connection errors. -/
def c9envFaulty : PredictionCacheStorage.RedisEnv :=
  { started := true
    readFault := some "connection refused"
    writeFault := some "connection refused" }

/-- Witness for c9_cache_degrades: both an unreachable and a faulting
cache degrade to miss / no-op on a concrete cache state. -/
theorem c9_cache_degrades_witness :
    (PredictionCacheStorage.get c9envDown c2cache 5 = none ∧
      PredictionCacheStorage.set c9envDown c2cache 5 ⟨true, 1⟩ = c2cache) ∧
    PredictionCacheStorage.get c9envFaulty c2cache 5 = none ∧
    PredictionCacheStorage.set c9envFaulty c2cache 5 ⟨true, 1⟩ = c2cache := by
  refine ⟨(c9_cache_degrades c9envDown c2cache 5 ⟨true, 1⟩).1 (by rfl), ?_, ?_⟩
  · exact (c9_cache_degrades c9envFaulty c2cache 5 ⟨true, 1⟩).2.2.2.1 (by rfl)
  · exact (c9_cache_degrades c9envFaulty c2cache 5 ⟨true, 1⟩).2.2.2.2 (by rfl)

/- ------------------------------------------------------------------ -/
/- Claim C10                                                           -/
/- ------------------------------------------------------------------ -/

/-- Erase the task_id field of a message value. -/
def QueueMessage.dropTask (q : QueueMessage) : QueueMessage :=
  { q with task_id := none }

/-- Erase the task_id passthrough inside an effect (retry and DLQ
messages copy the consumed value verbatim). -/
def Effect.dropTask : Effect → Effect
  | .sentRetry m => .sentRetry m.dropTask
  | .sentDLQ d => .sentDLQ { d with original_message := d.original_message.dropTask }
  | e => e

/-- The same consumed record with its value's task_id replaced. -/
def KafkaMessage.withTask (m : KafkaMessage) (t : Option Nat) : KafkaMessage :=
  { m with value := { m.value with task_id := t } }

theorem schedule_withTask (env : WorkerEnv) (msg : KafkaMessage)
    (t : Option Nat) (err : String) :
    (schedule_retry env (msg.withTask t) err).map Effect.dropTask =
      (schedule_retry env msg err).map Effect.dropTask := by
  unfold schedule_retry
  cases h : env.retryEnqueueErr <;> rfl

theorem handle_withTask (env : WorkerEnv) (msg : KafkaMessage)
    (db : List ModerationRow) (e : PyErr) (t : Option Nat) :
    (handleWorkerError env (msg.withTask t) db e).1 =
      (handleWorkerError env msg db e).1 ∧
    (handleWorkerError env (msg.withTask t) db e).2.map Effect.dropTask =
      (handleWorkerError env msg db e).2.map Effect.dropTask := by
  unfold handleWorkerError
  have hrc : retryCountOf (msg.withTask t).value = retryCountOf msg.value := rfl
  have hti : truthyItem (msg.withTask t).value.item_id =
      truthyItem msg.value.item_id := rfl
  rw [hrc, hti]
  by_cases h : retryCountOf msg.value < MAX_RETRIES
  · rw [if_pos h, if_pos h]
    exact ⟨rfl, schedule_withTask env msg t (workerErrMsg e)⟩
  · rw [if_neg h, if_neg h]
    cases h2 : truthyItem msg.value.item_id with
    | none => exact ⟨rfl, rfl⟩
    | some i =>
        dsimp only []
        refine ⟨rfl, ?_⟩
        rw [List.map_append, List.map_append]
        rfl

theorem process_withTask (env : WorkerEnv) (msg : KafkaMessage)
    (db : List ModerationRow) (t : Option Nat) :
    (process_message env (msg.withTask t) db).1 =
      (process_message env msg db).1 ∧
    (process_message env (msg.withTask t) db).2.map Effect.dropTask =
      (process_message env msg db).2.map Effect.dropTask := by
  unfold process_message
  have hti : truthyItem (msg.withTask t).value.item_id =
      truthyItem msg.value.item_id := rfl
  rw [hti]
  cases h1 : truthyItem msg.value.item_id with
  | none => exact ⟨rfl, rfl⟩
  | some i =>
    dsimp only []
    cases h2 : env.adLookup i with
    | none =>
        dsimp only []
        refine ⟨rfl, ?_⟩
        rw [List.map_append, List.map_append]
        rfl
    | some ad =>
      dsimp only []
      cases h3 : env.predict ad with
      | error e => exact handle_withTask env msg db e t
      | ok vp =>
        obtain ⟨v, p⟩ := vp
        dsimp only []
        cases h4 : env.updateErr with
        | some e => exact handle_withTask env msg db e t
        | none => exact ⟨rfl, rfl⟩

/-- Claim C10: the Worker never reads the consumed message's task_id —
replacing it changes neither the resulting store nor the effects once
the verbatim passthrough into retry/DLQ payloads is erased; on the
success path the item-keyed pending-guarded update finalizes every
pending task of the item in a single delivery; and the producer does
include a task_id in each enqueued message. -/
theorem c10_task_id_unused (env : WorkerEnv) (msg : KafkaMessage)
    (db : List ModerationRow) (t1 t2 : Option Nat) (i : Nat) (ad : Ad)
    (v : Bool) (p : Rat) :
    ((process_message env (msg.withTask t1) db).1 =
      (process_message env (msg.withTask t2) db).1) ∧
    ((process_message env (msg.withTask t1) db).2.map Effect.dropTask =
      (process_message env (msg.withTask t2) db).2.map Effect.dropTask) ∧
    (truthyItem msg.value.item_id = some i → env.adLookup i = some ad →
      env.predict ad = Except.ok (v, p) → env.updateErr = none →
      ∀ (k : Nat) (r : ModerationRow), db[k]? = some r → r.item_id = i →
        r.status = Status.pending →
        ((process_message env msg db).1)[k]? =
          some { r with status := Status.completed, is_violation := some v,
                        probability := some p, processed_at := some env.now }) ∧
    (∀ (it tk : Nat) (ts : String),
        (KafkaProducer.send_moderation_request it tk ts).task_id = some tk) := by
  refine ⟨?_, ?_, ?_, fun _ _ _ => rfl⟩
  · exact (process_withTask env msg db t1).1.trans
      (process_withTask env msg db t2).1.symm
  · exact (process_withTask env msg db t1).2.trans
      (process_withTask env msg db t2).2.symm
  · intro h1 h2 h3 h4 k r hk hi hst
    have hp : (process_message env msg db).1 =
        (workerUpdateCompleted db i v p env.now).1 := by
      unfold process_message
      simp only [h1, h2, h3, h4]
    rw [hp]
    simp [workerUpdateCompleted, List.getElem?_map, hk, hi, hst]

/-- A store where item 5 has two pending tasks. -/
def c10db : List ModerationRow :=
  [{ id := 31, item_id := 5, status := Status.pending,
     is_violation := none, probability := none,
     error_message := none, processed_at := none },
   { id := 32, item_id := 5, status := Status.pending,
     is_violation := none, probability := none,
     error_message := none, processed_at := none }]

/-- Witness for c10_task_id_unused: swapping the task id of the
consumed message leaves the resulting store identical, and one
successful delivery completes both pending tasks of item 5. -/
theorem c10_task_id_unused_witness :
    ((process_message c5env (c4msg.withTask (some 99)) c10db).1 =
      (process_message c5env (c4msg.withTask none) c10db).1) ∧
    ((process_message c5env c4msg c10db).1)[0]? =
      some { id := 31, item_id := 5, status := Status.completed,
             is_violation := some true, probability := some 1,
             error_message := none, processed_at := some 10 } ∧
    ((process_message c5env c4msg c10db).1)[1]? =
      some { id := 32, item_id := 5, status := Status.completed,
             is_violation := some true, probability := some 1,
             error_message := none, processed_at := some 10 } := by
  have h := c10_task_id_unused c5env c4msg c10db (some 99) none 5 wAd true 1
  refine ⟨h.1, ?_, ?_⟩
  · exact h.2.2.1 (by decide) (by rfl) (by rfl) (by rfl) 0 _ (by rfl)
      (by decide) (by decide)
  · exact h.2.2.1 (by decide) (by rfl) (by rfl) (by rfl) 1 _ (by rfl)
      (by decide) (by decide)
